import Mathlib

/-!
Shallow embedding of the ArchdioceseOfLipa announcements backend.

The embedded code consists of the announcement service
(`createAnnouncements`, `sendAnnouncementEmailToUsers`, `createEmailHtml`)
and the HTTP route layer (`POST /api/announcements`,
`POST /api/announcements/group/:groupId`, `GET /api/announcements`).

External collaborators (the Supabase data store and storage bucket, the
Resend email client) are modelled by an explicit environment `Env` whose
fields decide the outcome of each external call, plus a database state
`DBState` holding the four tables the pipeline touches.  JavaScript
`undefined` is modelled by `Option`; accessing a method on an undefined
value is modelled as a thrown `TypeError`.
-/

namespace ArchLipa

/-! ### Data model: rows of the external data store -/

/-- A row of the `users` table (the fields this pipeline reads). -/
structure UserRow where
  id : String
  email : String
  name : String
  email_notifications_enabled : Bool
deriving Repr, DecidableEq

/-- A row of the `group_members` table. -/
structure GroupMemberRow where
  user_id : String
  group_id : String
deriving Repr, DecidableEq

/-- A row of the `announcement` table. -/
structure AnnouncementRow where
  id : Nat
  title : String
  content : String
  visibility : String
  group_id : Option String
  user_id : String
  created_at : Nat
deriving Repr, DecidableEq

/-- A row of the `announcement_files` table.  `type` is the MIME type the
service copied from `file.mimetype`, which may be undefined. -/
structure AnnouncementFileRow where
  announcement_id : Nat
  url : String
  name : String
  type : Option String
deriving Repr, DecidableEq

/-- The mutable state of the data store. -/
structure DBState where
  announcements : List AnnouncementRow
  announcement_files : List AnnouncementFileRow
  users : List UserRow
  group_members : List GroupMemberRow
deriving Repr, DecidableEq

/-! ### JavaScript values -/

/-- A JavaScript file object as received by `createAnnouncements`.
Fields that a given producer did not set are `none` (JS `undefined`).
`hasArrayBuffer` / `hasStream` record whether the adapter attached the
`arrayBuffer()` / `stream()` methods. -/
structure JsFileObj where
  originalname : Option String
  name : Option String
  mimetype : Option String
  type : Option String
  size : Option Nat
  buffer : Option (List Nat)
  hasArrayBuffer : Bool
  hasStream : Bool
deriving Repr, DecidableEq

/-- A file produced by multer's memory storage: these fields are always
present on `req.files` entries. -/
structure MulterFile where
  originalname : String
  mimetype : String
  size : Nat
  buffer : List Nat
deriving Repr, DecidableEq

/-- The adapter in both POST route handlers: builds a File-like object
`{ name, type, size }` from a multer file and attaches `arrayBuffer` and
`stream` methods.  It sets neither `originalname` nor `mimetype` nor
`buffer`, so those read back as `undefined`. -/
def routeFileAdapter (f : MulterFile) : JsFileObj :=
  { originalname := none
    name := some f.originalname
    mimetype := none
    type := some f.mimetype
    size := some f.size
    buffer := none
    hasArrayBuffer := true
    hasStream := true }

/-- JS truthiness of a string-or-null value: `null`, `undefined` and the
empty string are falsy; every other string is truthy. -/
def jsTruthyStr : Option String → Bool
  | none => false
  | some s => !(s == "")

/-- The route layer's `req.body.groupId || null`: a missing or empty
`groupId` becomes `null`. -/
def jsOrNull : Option String → Option String
  | none => none
  | some s => if s == "" then none else some s

/-- An exception value thrown by the service. -/
inductive JsError where
  | typeError (msg : String)
  | uploadError (msg : String)
  | dbError (msg : String)
deriving Repr, DecidableEq

/-- A call made to the storage backend's `upload`. -/
structure UploadCall where
  bucket : String
  path : String
  body : Option (List Nat)
  contentType : Option String
deriving Repr, DecidableEq

/-- A write issued to the data store. -/
inductive DBOp where
  | insertAnn (row : AnnouncementRow)
  | insertFile (row : AnnouncementFileRow)
deriving Repr, DecidableEq

/-- One `resend.emails.send` attempt; `ok` records whether the email
client accepted it. -/
structure EmailAttempt where
  sender : String
  recipient : String
  subject : String
  html : String
  ok : Bool
deriving Repr, DecidableEq

/-- Behaviour of the external collaborators: each field decides the
outcome of one kind of external call. -/
structure Env where
  /-- `supabase.storage.from("Uroboros").upload(path, body, contentType)`:
  either an error message or the stored path returned in `data.path`. -/
  upload : String → Option (List Nat) → Option String → Except String String
  /-- Error injected into the `announcement` insert, if any. -/
  annInsertErr : Option String
  /-- The id the data store assigns to the inserted announcement. -/
  newAnnId : Nat
  /-- The `created_at` the data store assigns to the inserted announcement. -/
  createdAt : Nat
  /-- Error injected into an `announcement_files` insert, per row. -/
  fileInsertErr : AnnouncementFileRow → Option String
  /-- Error injected into the `group_members` fetch of the notification stage. -/
  groupQueryErr : Option String
  /-- Error injected into the `users` fetch of the notification stage. -/
  usersQueryErr : Option String
  /-- Error injected into `resend.emails.send`, per recipient address. -/
  sendErr : String → Option String
  /-- Error injected into the membership check of the group route. -/
  membershipErr : Option String
  /-- Error injected into the `GET /api/announcements` query. -/
  listErr : Option String
  /-- `getPublicUrl(path).data.publicUrl`. -/
  publicUrl : String → String

/-! ### Announcement service -/

/-- `originalname.split(".")[0]`: the portion of the name before the
first dot (the whole name when it has no dot). -/
def beforeFirstDot (s : String) : String :=
  ⟨s.data.takeWhile (fun c => !(c == '.'))⟩

/-- The service's derived file name: filename base plus `Date.now()`. -/
def deriveFileName (originalname : String) (now : Nat) : String :=
  beforeFirstDot originalname ++ "-" ++ toString now

/-- The storage key used for an upload: fixed `announcement/` prefix on the
derived name, with a hard-coded `.png` suffix. -/
def announcementPath (originalname : String) (now : Nat) : String :=
  "announcement/" ++ deriveFileName originalname now ++ ".png"

/-- The entry pushed onto `fileData` for a successful upload. -/
structure FileData where
  url : String
  name : String
  type : Option String
deriving Repr, DecidableEq

/-- One iteration of the upload loop in `createAnnouncements`:
reading `file.originalname.split` throws a `TypeError` when the field is
undefined; otherwise the storage upload is attempted, a failure becomes
an `Error uploading file` throw, and a success yields the `fileData`
entry `{ url, name, type }`.  The first component records the upload call
actually issued to the storage backend (if any). -/
def processFile (upload : String → Option (List Nat) → Option String → Except String String)
    (now : Nat) (f : JsFileObj) : Option UploadCall × Except JsError FileData :=
  match f.originalname with
  | none =>
      (none, .error (.typeError "Cannot read properties of undefined (reading split)"))
  | some oname =>
      let fileName := deriveFileName oname now
      let path := "announcement/" ++ fileName ++ ".png"
      let call : UploadCall :=
        { bucket := "Uroboros", path := path, body := f.buffer, contentType := f.mimetype }
      match upload path f.buffer f.mimetype with
      | .error m => (some call, .error (.uploadError ("Error uploading file: " ++ m)))
      | .ok retPath => (some call, .ok { url := retPath, name := fileName, type := f.mimetype })

/-- The `Promise.all` over `data.files`: every file is processed (so every
well-formed file's upload is issued), the successes are collected into
`fileData`, and if any single file failed the whole phase rejects. -/
def uploadPhase (upload : String → Option (List Nat) → Option String → Except String String)
    (now : Nat) (files : List JsFileObj) :
    List UploadCall × Except JsError (List FileData) :=
  let results := files.map (processFile upload now)
  let calls := results.filterMap Prod.fst
  match results.findSome? (fun r => match r.2 with | .error e => some e | .ok _ => none) with
  | some e => (calls, .error e)
  | none => (calls, .ok (results.filterMap (fun r => r.2.toOption)))

/-- The `announcement_files` row built for one `fileData` entry. -/
def fileRowOf (annId : Nat) (fd : FileData) : AnnouncementFileRow :=
  { announcement_id := annId, url := fd.url, name := fd.name, type := fd.type }

/-- The `Promise.all` over `fileData`: every insert is issued; rows whose
insert the store accepts are committed even when a sibling insert fails,
and the first failure makes the phase reject. -/
def insertFilesPhase (fileInsertErr : AnnouncementFileRow → Option String)
    (annId : Nat) (fds : List FileData) :
    List AnnouncementFileRow × Option JsError :=
  let rows := fds.map (fileRowOf annId)
  let inserted := rows.filter (fun r => (fileInsertErr r).isNone)
  (inserted, (rows.findSome? fileInsertErr).map JsError.dbError)

/-- `file.type.startsWith(pre)` on a possibly-undefined string. -/
def jsStartsWith (s : Option String) (pre : String) : Except String Bool :=
  match s with
  | none => .error "Cannot read properties of undefined (reading startsWith)"
  | some s => .ok (s.startsWith pre)

/-- `files.filter((file) => file.type.startsWith("image/"))`. -/
def filterImageFiles : List FileData → Except String (List FileData)
  | [] => .ok []
  | f :: fs => do
      let b ← jsStartsWith f.type "image/"
      let rest ← filterImageFiles fs
      .ok (if b then f :: rest else rest)

/-- `createEmailHtml(title, content, files)`: renders one HTML document
embedding the title, the content verbatim, and each image-typed file as an
inline img tag pointing at its derived public URL. -/
def createEmailHtml (publicUrl : String → String) (title content : String)
    (files : List FileData) : Except String String := do
  let imageFiles ← filterImageFiles files
  let imagesHtml :=
    if imageFiles.length > 0 then
      "<div style=\"margin-top: 20px;\">"
        ++ String.join (imageFiles.map (fun file =>
            "<img src=\"" ++ publicUrl file.url ++ "\" alt=\"" ++ file.name
              ++ "\" style=\"max-width: 100%; margin-bottom: 10px; border-radius: 4px;\">"))
        ++ "</div>"
    else ""
  .ok ("<div style=\"font-family: Arial, sans-serif;\"><h1>" ++ title
    ++ "</h1><div>" ++ content ++ "</div>" ++ imagesHtml
    ++ "<p>This is an automated message from the Archdiocese of Lipa.</p></div>")

/-- The sender string used for every notification email. -/
def announcementSender : String :=
  "On behalf of the Archdiocese of Lipa <archdioceseoflipa@togather.app>"

/-- The tail of `sendAnnouncementEmailToUsers`: run the accumulated `users`
query (enabled users, optionally restricted to the given member ids),
return early when it errors or matches nobody, render the HTML once, and
issue one send per recipient, each individually try/caught. -/
def finishSend (usersQueryErr : Option String) (sendErr : String → Option String)
    (publicUrl : String → String) (db : DBState) (title content : String)
    (files : List FileData) (memberIds : Option (List String)) :
    Except String (List EmailAttempt) :=
  match usersQueryErr with
  | some _ => .ok []
  | none =>
      let base := db.users.filter (fun (u : UserRow) => u.email_notifications_enabled)
      let users :=
        match memberIds with
        | some ids => base.filter (fun (u : UserRow) => ids.contains u.id)
        | none => base
      if users.isEmpty then .ok []
      else do
        let html ← createEmailHtml publicUrl title content files
        .ok (users.map (fun (u : UserRow) =>
          { sender := announcementSender
            recipient := u.email
            subject := title
            html := html
            ok := (sendErr u.email).isNone }))

/-- `sendAnnouncementEmailToUsers(title, content, files, groupId)`:
a truthy `groupId` first fetches that group's members (a query error or an
empty membership returns with no sends) and restricts the recipient query
to those member ids; otherwise all opted-in users are queried. -/
def sendAnnouncementEmailToUsers (env : Env) (db : DBState)
    (title content : String) (files : List FileData) (groupId : Option String) :
    Except String (List EmailAttempt) :=
  if jsTruthyStr groupId then
    match env.groupQueryErr with
    | some _ => .ok []
    | none =>
        let groupMembers := db.group_members.filter (fun m => some m.group_id == groupId)
        if groupMembers.length > 0 then
          finishSend env.usersQueryErr env.sendErr env.publicUrl db title content files
            (some (groupMembers.map (fun m => m.user_id)))
        else .ok []
  else
    finishSend env.usersQueryErr env.sendErr env.publicUrl db title content files none

/-- The `data` argument of `createAnnouncements`; `files` is `none` when
the caller did not supply a `files` array. -/
structure AnnData where
  title : String
  content : String
  files : Option (List JsFileObj)
deriving Repr, DecidableEq

/-- The announcement row inserted by `createAnnouncements`: visibility is
`"private"` exactly when `groupId` is truthy, while `group_id` is
`groupId ?? null` (the supplied value whenever it is non-null). -/
def newAnnouncementRow (env : Env) (data : AnnData) (userId : String)
    (groupId : Option String) : AnnouncementRow :=
  { id := env.newAnnId
    title := data.title
    content := data.content
    visibility := if jsTruthyStr groupId then "private" else "public"
    group_id := groupId
    user_id := userId
    created_at := env.createdAt }

/-- Everything observable about one `createAnnouncements` call: the data
store afterwards, the trace of external calls, and the returned value or
thrown error. -/
structure CreateResult where
  db : DBState
  uploads : List UploadCall
  dbOps : List DBOp
  emails : List EmailAttempt
  outcome : Except JsError Nat

/-- `createAnnouncements({ data, userId, groupId })`: upload the files (if
any) — any failure there aborts before the announcement insert; insert the
announcement row; insert one `announcement_files` row per uploaded file;
then send notification emails, swallowing any error of that stage; return
the created announcement's id. -/
def createAnnouncements (env : Env) (db : DBState) (data : AnnData)
    (userId : String) (groupId : Option String) (now : Nat) : CreateResult :=
  let step1 : List UploadCall × Except JsError (List FileData) :=
    match data.files with
    | some fs => if fs.length > 0 then uploadPhase env.upload now fs else ([], .ok [])
    | none => ([], .ok [])
  match step1 with
  | (calls, .error e) =>
      { db := db, uploads := calls, dbOps := [], emails := [], outcome := .error e }
  | (calls, .ok fileData) =>
      match env.annInsertErr with
      | some m =>
          { db := db, uploads := calls, dbOps := [], emails := [],
            outcome := .error (.dbError m) }
      | none =>
          let annRow := newAnnouncementRow env data userId groupId
          let db1 := { db with announcements := db.announcements ++ [annRow] }
          let inserted := insertFilesPhase env.fileInsertErr env.newAnnId fileData
          let db2 := { db1 with announcement_files := db1.announcement_files ++ inserted.1 }
          let ops := DBOp.insertAnn annRow :: inserted.1.map DBOp.insertFile
          match inserted.2 with
          | some e =>
              { db := db2, uploads := calls, dbOps := ops, emails := [], outcome := .error e }
          | none =>
              let emails :=
                (sendAnnouncementEmailToUsers env db2 data.title data.content
                  fileData groupId).toOption.getD []
              { db := db2, uploads := calls, dbOps := ops, emails := emails,
                outcome := .ok env.newAnnId }

/-! ### HTTP route layer -/

/-- The request body fields the POST handlers read. -/
structure ReqBody where
  title : String
  content : String
  groupId : Option String
deriving Repr, DecidableEq

/-- Everything observable about one handled POST request. -/
structure RouteResult where
  db : DBState
  uploads : List UploadCall
  dbOps : List DBOp
  emails : List EmailAttempt
  status : Nat
  success : Bool

/-- `POST /api/announcements`: adapt the multer files, default `groupId`
to null, call the service, answer 201 on success and 500 on any throw. -/
def handlePostAnnouncements (env : Env) (db : DBState) (body : ReqBody)
    (reqFiles : List MulterFile) (userId : String) (now : Nat) : RouteResult :=
  let groupId := jsOrNull body.groupId
  let files := reqFiles.map routeFileAdapter
  let r := createAnnouncements env db
    { title := body.title, content := body.content, files := some files } userId groupId now
  match r.outcome with
  | .ok _ =>
      { db := r.db, uploads := r.uploads, dbOps := r.dbOps, emails := r.emails,
        status := 201, success := true }
  | .error _ =>
      { db := r.db, uploads := r.uploads, dbOps := r.dbOps, emails := r.emails,
        status := 500, success := false }

/-- The group route's membership lookup:
`.eq("user_id", userId).eq("group_id", groupId).single()`.  `.single()`
errors when the filter matches no row (or more than one); an injected
store failure also surfaces as an error. -/
def membershipCheck (env : Env) (db : DBState) (userId gid : String) :
    Except String GroupMemberRow :=
  match env.membershipErr with
  | some e => .error e
  | none =>
      match db.group_members.filter (fun m => m.user_id == userId && m.group_id == gid) with
      | [r] => .ok r
      | _ => .error "JSON object requested, multiple (or no) rows returned"

/-- `POST /api/announcements/group/:groupId`: answer 403 when the
membership check errors or yields no row, otherwise behave like the plain
POST handler with `groupId` bound from the path. -/
def handleGroupPost (env : Env) (db : DBState) (body : ReqBody)
    (reqFiles : List MulterFile) (userId gid : String) (now : Nat) : RouteResult :=
  match membershipCheck env db userId gid with
  | .error _ =>
      { db := db, uploads := [], dbOps := [], emails := [], status := 403, success := false }
  | .ok _ =>
      let files := reqFiles.map routeFileAdapter
      let r := createAnnouncements env db
        { title := body.title, content := body.content, files := some files }
        userId (some gid) now
      match r.outcome with
      | .ok _ =>
          { db := r.db, uploads := r.uploads, dbOps := r.dbOps, emails := r.emails,
            status := 201, success := true }
      | .error _ =>
          { db := r.db, uploads := r.uploads, dbOps := r.dbOps, emails := r.emails,
            status := 500, success := false }

/-- One item of the GET response: an announcement joined with its files
and its authoring user's name and email. -/
structure JoinedAnnouncement where
  ann : AnnouncementRow
  announcement_files : List AnnouncementFileRow
  author : Option (String × String)
deriving Repr, DecidableEq

/-- Newest-first ordering on announcement rows, as requested by
`.order("created_at", { ascending: false })`. -/
def annGE (a b : AnnouncementRow) : Prop := b.created_at ≤ a.created_at

instance : DecidableRel annGE := fun a b => Nat.decLe b.created_at a.created_at

instance : IsTotal AnnouncementRow annGE :=
  ⟨fun a b => Nat.le_total b.created_at a.created_at⟩

instance : IsTrans AnnouncementRow annGE :=
  ⟨fun _ _ _ h1 h2 => Nat.le_trans h2 h1⟩

/-- The join performed by the GET query for one announcement row. -/
def joinAnnouncement (db : DBState) (a : AnnouncementRow) : JoinedAnnouncement :=
  { ann := a
    announcement_files := db.announcement_files.filter (fun f => f.announcement_id == a.id)
    author := (db.users.find? (fun u => u.id == a.user_id)).map (fun u => (u.name, u.email)) }

/-- The response of `GET /api/announcements`. -/
structure GetResult where
  status : Nat
  success : Bool
  rows : List JoinedAnnouncement

/-- `GET /api/announcements`: select the announcements with
`visibility = "public"`, joined with their files and author, ordered by
`created_at` descending; a query error becomes a 500. -/
def handleGetAnnouncements (env : Env) (db : DBState) : GetResult :=
  match env.listErr with
  | some _ => { status := 500, success := false, rows := [] }
  | none =>
      let pub := db.announcements.filter (fun a => a.visibility == "public")
      let sorted := pub.insertionSort annGE
      { status := 200, success := true, rows := sorted.map (joinAnnouncement db) }

/-! ### Concrete fixtures for witnesses and counterexamples -/

/-- An environment in which every external call succeeds. -/
def envOk : Env :=
  { upload := fun p _ _ => .ok p
    annInsertErr := none
    newAnnId := 7
    createdAt := 100
    fileInsertErr := fun _ => none
    groupQueryErr := none
    usersQueryErr := none
    sendErr := fun _ => none
    membershipErr := none
    listErr := none
    publicUrl := fun p => "https://cdn.example.com/" ++ p }

/-- An empty data store. -/
def db0 : DBState :=
  { announcements := []
    announcement_files := []
    users := []
    group_members := [] }

/-- A data store with three users (two opted in) and one group member. -/
def dbU : DBState :=
  { announcements := []
    announcement_files := []
    users := [⟨"u1", "a@ex.com", "A", true⟩, ⟨"u2", "b@ex.com", "B", false⟩,
              ⟨"u3", "c@ex.com", "C", true⟩]
    group_members := [⟨"u3", "g1"⟩] }

/-- A well-formed file object as a direct caller of the service would
supply it. -/
def fileJpg : JsFileObj :=
  { originalname := some "photo.jpg"
    name := none
    mimetype := some "image/jpeg"
    type := none
    size := some 2
    buffer := some [1, 2]
    hasArrayBuffer := false
    hasStream := false }

/-! ### Helper lemmas -/

/-- The only `insertAnn` operation `createAnnouncements` can issue is the
row described by `newAnnouncementRow`. -/
theorem insertAnn_mem_dbOps {env : Env} {db : DBState} {data : AnnData}
    {userId : String} {groupId : Option String} {now : Nat} {row : AnnouncementRow}
    (hmem : DBOp.insertAnn row ∈ (createAnnouncements env db data userId groupId now).dbOps) :
    row = newAnnouncementRow env data userId groupId := by
  unfold createAnnouncements at hmem
  dsimp only at hmem
  repeat' split at hmem
  all_goals simp only [List.mem_cons, List.mem_map, List.not_mem_nil] at hmem
  all_goals
    first
      | exact hmem.elim
      | (rcases hmem with h | ⟨r, _, h⟩
         · exact DBOp.insertAnn.inj h
         · exact DBOp.noConfusion h)

/-! ### Claims -/

/-- Claim C1 (amended): the inserted announcement row has visibility
`"public"` and null `group_id` when the supplied `groupId` is null, and
visibility `"private"` with `group_id` equal to the supplied `groupId`
when `groupId` is a non-null, non-empty string. -/
theorem c1_inserted_row_visibility (env : Env) (db : DBState) (data : AnnData)
    (userId : String) (groupId : Option String) (now : Nat) (row : AnnouncementRow)
    (hmem : DBOp.insertAnn row ∈ (createAnnouncements env db data userId groupId now).dbOps) :
    (groupId = none → row.visibility = "public" ∧ row.group_id = none) ∧
    (∀ g, groupId = some g → g ≠ "" → row.visibility = "private" ∧ row.group_id = some g) := by
  have hrow := insertAnn_mem_dbOps hmem
  subst hrow
  constructor
  · intro h
    subst h
    simp [newAnnouncementRow, jsTruthyStr]
  · intro g hg hne
    subst hg
    simp [newAnnouncementRow, jsTruthyStr, hne]

/-- Witness for C1: a concrete no-file public creation and a concrete
group-scoped creation, with the amended visibility rule discharged on
them. -/
theorem c1_inserted_row_visibility_witness :
    ((newAnnouncementRow envOk ⟨"T", "C", none⟩ "u1" none).visibility = "public" ∧
      (newAnnouncementRow envOk ⟨"T", "C", none⟩ "u1" none).group_id = none) ∧
    ((newAnnouncementRow envOk ⟨"T", "C", none⟩ "u1" (some "g1")).visibility = "private" ∧
      (newAnnouncementRow envOk ⟨"T", "C", none⟩ "u1" (some "g1")).group_id = some "g1") :=
  ⟨(c1_inserted_row_visibility envOk db0 ⟨"T", "C", none⟩ "u1" none 0 _
      (by decide)).1 rfl,
   (c1_inserted_row_visibility envOk db0 ⟨"T", "C", none⟩ "u1" (some "g1") 0 _
      (by decide)).2 "g1" rfl (by decide)⟩

/-- Counterexample to C1 as stated: the empty string is a non-null
`groupId`, yet the inserted row is `"public"` (with `group_id` equal to
the empty string), because the code derives visibility from JS truthiness
(`groupId ? "private" : "public"`) but `group_id` from nullish coalescing
(`groupId ?? null`). -/
theorem c1_counterexample :
    ((some "" : Option String) ≠ none) ∧
    (createAnnouncements envOk db0 ⟨"T", "C", none⟩ "u1" (some "") 5).db.announcements.map
        (fun a => (a.visibility, a.group_id)) = [("public", some "")] ∧
    ("public" : String) ≠ "private" := by
  refine ⟨by decide, by decide, by decide⟩

/-- `takeWhile` of a list all of whose elements satisfy the predicate,
followed by a failing element, is exactly that list. -/
theorem takeWhile_append_of_all {p : Char → Bool} {d : Char} (l2 : List Char) :
    ∀ l1 : List Char, (∀ c ∈ l1, p c = true) → p d = false →
      (l1 ++ d :: l2).takeWhile p = l1 := by
  intro l1
  induction l1 with
  | nil => intro _ hd; simp [List.takeWhile, hd]
  | cons a l ih =>
      intro h hd
      have ha : p a = true := h a (by simp)
      simp only [List.cons_append, List.takeWhile_cons, ha, if_true]
      rw [ih (fun c hc => h c (by simp [hc])) hd]

/-- `beforeFirstDot` recovers the base of a dotted filename: for any
dot-free `base` and any `ext`, the derived key base of `base ++ "." ++ ext`
is `base` — the original extension never reaches the storage path. -/
theorem beforeFirstDot_append (base ext : String)
    (h : ∀ c ∈ base.data, c ≠ '.') :
    beforeFirstDot (base ++ "." ++ ext) = base := by
  obtain ⟨l⟩ := base
  unfold beforeFirstDot
  have hd : ((String.mk l ++ "." ++ ext)).data = l ++ '.' :: ext.data := by
    simp [String.data_append]
  rw [hd, takeWhile_append_of_all]
  · intro c hc
    simpa using h c hc
  · decide

/-- Claim C8: every upload issued by the service goes to the bucket
`"Uroboros"` at path `announcement/<base>-<timestamp>.png` where `<base>`
is the portion of the original filename before the first dot (so the
original extension is ignored, as the final conjunct shows), and the
file's MIME type is passed as the upload's content type. -/
theorem c8_upload_path
    (upload : String → Option (List Nat) → Option String → Except String String)
    (now : Nat) (f : JsFileObj) (oname : String) (call : UploadCall)
    (hname : f.originalname = some oname)
    (hcall : (processFile upload now f).1 = some call) :
    call.bucket = "Uroboros" ∧
    call.path = "announcement/" ++ beforeFirstDot oname ++ "-" ++ toString now ++ ".png" ∧
    call.contentType = f.mimetype ∧
    call.body = f.buffer ∧
    (∀ base ext : String, (∀ c ∈ base.data, c ≠ '.') →
      beforeFirstDot (base ++ "." ++ ext) = base) := by
  unfold processFile at hcall
  rw [hname] at hcall
  dsimp only at hcall
  split at hcall <;>
    (injection hcall with h
     subst h
     refine ⟨rfl, ?_, rfl, rfl, beforeFirstDot_append⟩
     simp [deriveFileName, String.append_assoc])

/-- Witness for C8: the concrete file `photo.jpg` at timestamp 42 is
uploaded to `announcement/photo-42.png` with content type `image/jpeg`. -/
theorem c8_upload_path_witness :
    ({ bucket := "Uroboros", path := "announcement/photo-42.png",
       body := some [1, 2], contentType := some "image/jpeg" } : UploadCall).bucket
        = "Uroboros" ∧
    ({ bucket := "Uroboros", path := "announcement/photo-42.png",
       body := some [1, 2], contentType := some "image/jpeg" } : UploadCall).path
        = "announcement/" ++ beforeFirstDot "photo.jpg" ++ "-" ++ toString 42 ++ ".png" ∧
    ({ bucket := "Uroboros", path := "announcement/photo-42.png",
       body := some [1, 2], contentType := some "image/jpeg" } : UploadCall).contentType
        = fileJpg.mimetype :=
  let h := c8_upload_path envOk.upload 42 fileJpg "photo.jpg"
    { bucket := "Uroboros", path := "announcement/photo-42.png",
      body := some [1, 2], contentType := some "image/jpeg" } rfl (by decide)
  ⟨h.1, h.2.1, h.2.2.1⟩

/-- An environment in which every storage upload fails. -/
def envUploadFail : Env :=
  { envOk with upload := fun _ _ _ => .error "boom" }

/-- Processing a route-adapted file always throws the `TypeError`, and
issues no upload call. -/
theorem processFile_routeFileAdapter
    (u : String → Option (List Nat) → Option String → Except String String)
    (now : Nat) (f : MulterFile) :
    processFile u now (routeFileAdapter f) =
      (none, .error (.typeError "Cannot read properties of undefined (reading split)")) :=
  rfl

/-- Over route-adapted files, the whole upload phase issues no upload and
rejects with the `TypeError` (provided there is at least one file). -/
theorem uploadPhase_routeFileAdapter
    (u : String → Option (List Nat) → Option String → Except String String)
    (now : Nat) : ∀ (fs : List MulterFile), fs ≠ [] →
    uploadPhase u now (fs.map routeFileAdapter) =
      ([], .error (.typeError "Cannot read properties of undefined (reading split)")) := by
  have hmap : ∀ fs : List MulterFile,
      (fs.map routeFileAdapter).map (processFile u now) =
        fs.map (fun _ => ((none : Option UploadCall),
          (.error (.typeError "Cannot read properties of undefined (reading split)") :
            Except JsError FileData))) := by
    intro fs
    induction fs with
    | nil => rfl
    | cons f l ih => simp only [List.map_cons, processFile_routeFileAdapter, ih]
  have hfm : ∀ fs : List MulterFile,
      (fs.map (fun _ => ((none : Option UploadCall),
          (.error (.typeError "Cannot read properties of undefined (reading split)") :
            Except JsError FileData)))).filterMap Prod.fst = [] := by
    intro fs
    induction fs with
    | nil => rfl
    | cons f l ih => simp [List.filterMap_cons, ih]
  intro fs hfs
  cases fs with
  | nil => exact absurd rfl hfs
  | cons f l =>
      unfold uploadPhase
      dsimp only
      rw [hmap, List.map_cons]
      simp only [List.findSome?_cons, List.filterMap_cons]
      rw [hfm l]

/-- A file-bearing call through either route adapter makes
`createAnnouncements` reject with the `TypeError` before any upload or
insert. -/
theorem createAnnouncements_routeFiles (env : Env) (db : DBState)
    (title content : String) (userId : String) (groupId : Option String) (now : Nat)
    (reqFiles : List MulterFile) (hfs : reqFiles ≠ []) :
    createAnnouncements env db
        { title := title, content := content, files := some (reqFiles.map routeFileAdapter) }
        userId groupId now =
      { db := db, uploads := [], dbOps := [], emails := [],
        outcome := .error (.typeError "Cannot read properties of undefined (reading split)") } := by
  have hlen : (reqFiles.map routeFileAdapter).length > 0 := by
    simpa [List.length_pos] using hfs
  unfold createAnnouncements
  dsimp only
  rw [if_pos hlen, uploadPhase_routeFileAdapter env.upload now reqFiles hfs]

/-- Claim C2: the route layer hands `createAnnouncements` file objects
defining `name`/`type`/`size` and the `arrayBuffer`/`stream` methods but
not the `originalname`/`buffer`/`mimetype` fields the service reads, so
the key derivation throws before any upload or insert and every
file-bearing creation request fails with 500, creating no announcement —
on the plain route always, and on the group route whenever the membership
check lets the request through. -/
theorem c2_file_bearing_requests_fail (env : Env) (db : DBState) (body : ReqBody)
    (reqFiles : List MulterFile) (userId gid : String) (now : Nat)
    (hfs : reqFiles ≠ []) :
    ((handlePostAnnouncements env db body reqFiles userId now).status = 500 ∧
      (handlePostAnnouncements env db body reqFiles userId now).db = db ∧
      (handlePostAnnouncements env db body reqFiles userId now).uploads = [] ∧
      (handlePostAnnouncements env db body reqFiles userId now).dbOps = []) ∧
    ((membershipCheck env db userId gid).isOk = true →
      (handleGroupPost env db body reqFiles userId gid now).status = 500 ∧
      (handleGroupPost env db body reqFiles userId gid now).db = db ∧
      (handleGroupPost env db body reqFiles userId gid now).uploads = [] ∧
      (handleGroupPost env db body reqFiles userId gid now).dbOps = []) ∧
    (∀ f ∈ reqFiles,
      (routeFileAdapter f).originalname = none ∧
      (routeFileAdapter f).buffer = none ∧
      (routeFileAdapter f).mimetype = none ∧
      (routeFileAdapter f).name = some f.originalname ∧
      (routeFileAdapter f).type = some f.mimetype ∧
      (routeFileAdapter f).size = some f.size ∧
      (routeFileAdapter f).hasArrayBuffer = true ∧
      (routeFileAdapter f).hasStream = true) := by
  refine ⟨?_, ?_, ?_⟩
  · unfold handlePostAnnouncements
    dsimp only
    rw [createAnnouncements_routeFiles env db body.title body.content userId
      (jsOrNull body.groupId) now reqFiles hfs]
    exact ⟨rfl, rfl, rfl, rfl⟩
  · intro hmem
    unfold handleGroupPost
    cases hm : membershipCheck env db userId gid with
    | error e => rw [hm] at hmem; exact absurd hmem (by simp [Except.isOk, Except.toBool])
    | ok r =>
        dsimp only
        rw [createAnnouncements_routeFiles env db body.title body.content userId
          (some gid) now reqFiles hfs]
        exact ⟨rfl, rfl, rfl, rfl⟩
  · intro f _
    exact ⟨rfl, rfl, rfl, rfl, rfl, rfl, rfl, rfl⟩

/-- Witness for C2: a single concrete PNG upload through each route (the
group route with an existing membership) yields 500 and leaves the store
untouched. -/
theorem c2_file_bearing_requests_fail_witness :
    ((handlePostAnnouncements envOk dbU ⟨"T", "C", none⟩ [⟨"a.png", "image/png", 3, [9]⟩]
        "u3" 5).status = 500 ∧
      (handlePostAnnouncements envOk dbU ⟨"T", "C", none⟩ [⟨"a.png", "image/png", 3, [9]⟩]
        "u3" 5).db = dbU ∧
      (handlePostAnnouncements envOk dbU ⟨"T", "C", none⟩ [⟨"a.png", "image/png", 3, [9]⟩]
        "u3" 5).uploads = [] ∧
      (handlePostAnnouncements envOk dbU ⟨"T", "C", none⟩ [⟨"a.png", "image/png", 3, [9]⟩]
        "u3" 5).dbOps = []) ∧
    ((handleGroupPost envOk dbU ⟨"T", "C", none⟩ [⟨"a.png", "image/png", 3, [9]⟩]
        "u3" "g1" 5).status = 500 ∧
      (handleGroupPost envOk dbU ⟨"T", "C", none⟩ [⟨"a.png", "image/png", 3, [9]⟩]
        "u3" "g1" 5).db = dbU ∧
      (handleGroupPost envOk dbU ⟨"T", "C", none⟩ [⟨"a.png", "image/png", 3, [9]⟩]
        "u3" "g1" 5).uploads = [] ∧
      (handleGroupPost envOk dbU ⟨"T", "C", none⟩ [⟨"a.png", "image/png", 3, [9]⟩]
        "u3" "g1" 5).dbOps = []) :=
  ⟨(c2_file_bearing_requests_fail envOk dbU ⟨"T", "C", none⟩
      [⟨"a.png", "image/png", 3, [9]⟩] "u3" "g1" 5 (by decide)).1,
   (c2_file_bearing_requests_fail envOk dbU ⟨"T", "C", none⟩
      [⟨"a.png", "image/png", 3, [9]⟩] "u3" "g1" 5 (by decide)).2.1 (by decide)⟩

/-- If some file of the batch fails, the whole upload phase rejects. -/
theorem uploadPhase_isOk_false_of_mem
    {u : String → Option (List Nat) → Option String → Except String String}
    {now : Nat} {fs : List JsFileObj} {f : JsFileObj} {e : JsError}
    (hf : f ∈ fs) (he : (processFile u now f).2 = .error e) :
    (uploadPhase u now fs).2.isOk = false := by
  unfold uploadPhase
  dsimp only
  split
  · rfl
  · rename_i heq
    exfalso
    have hall := List.findSome?_eq_none_iff.mp heq (processFile u now f)
      (List.mem_map_of_mem _ hf)
    rw [he] at hall
    simp at hall

/-- Claim C3: if any one of the uploads of a file batch fails, the
operation throws with the store exactly as before: no announcement row,
no `announcement_files` row, indeed no insert at all is issued. -/
theorem c3_upload_failure_aborts (env : Env) (db : DBState) (data : AnnData)
    (userId : String) (groupId : Option String) (now : Nat)
    (fs : List JsFileObj) (f : JsFileObj) (oname e : String)
    (hfiles : data.files = some fs) (hf : f ∈ fs)
    (hname : f.originalname = some oname)
    (hup : env.upload (announcementPath oname now) f.buffer f.mimetype = .error e) :
    (createAnnouncements env db data userId groupId now).outcome.isOk = false ∧
    (createAnnouncements env db data userId groupId now).db = db ∧
    (createAnnouncements env db data userId groupId now).dbOps = [] := by
  have hperr : (processFile env.upload now f).2 =
      .error (.uploadError ("Error uploading file: " ++ e)) := by
    unfold processFile
    rw [hname]
    dsimp only
    unfold announcementPath at hup
    rw [hup]
  have hNotOk := uploadPhase_isOk_false_of_mem hf hperr
  have hlen : fs.length > 0 := List.length_pos.mpr (List.ne_nil_of_mem hf)
  unfold createAnnouncements
  rw [hfiles]
  dsimp only
  rw [if_pos hlen]
  rcases hU : uploadPhase env.upload now fs with ⟨calls, res⟩
  cases res with
  | error e' => exact ⟨rfl, rfl, rfl⟩
  | ok fds =>
      rw [hU] at hNotOk
      simp [Except.isOk, Except.toBool] at hNotOk

/-- Witness for C3: one concrete file whose upload the storage backend
rejects yields a thrown error and an unchanged store. -/
theorem c3_upload_failure_aborts_witness :
    (createAnnouncements envUploadFail db0 ⟨"T", "C", some [fileJpg]⟩ "u1" none
        42).outcome.isOk = false ∧
    (createAnnouncements envUploadFail db0 ⟨"T", "C", some [fileJpg]⟩ "u1" none 42).db = db0 ∧
    (createAnnouncements envUploadFail db0 ⟨"T", "C", some [fileJpg]⟩ "u1" none
        42).dbOps = [] :=
  c3_upload_failure_aborts envUploadFail db0 ⟨"T", "C", some [fileJpg]⟩ "u1" none 42
    [fileJpg] fileJpg "photo.jpg" "boom" rfl (by decide) rfl rfl

/-- Claim C6: a group-scoped POST by a caller with no membership row for
that group answers 403, and nothing reaches the service: no upload, no
insert, and the store is unchanged. -/
theorem c6_non_member_403 (env : Env) (db : DBState) (body : ReqBody)
    (reqFiles : List MulterFile) (userId gid : String) (now : Nat)
    (hno : db.group_members.filter
        (fun m => m.user_id == userId && m.group_id == gid) = []) :
    (handleGroupPost env db body reqFiles userId gid now).status = 403 ∧
    (handleGroupPost env db body reqFiles userId gid now).db = db ∧
    (handleGroupPost env db body reqFiles userId gid now).dbOps = [] ∧
    (handleGroupPost env db body reqFiles userId gid now).uploads = [] ∧
    (handleGroupPost env db body reqFiles userId gid now).success = false := by
  have hmc : ∀ r, membershipCheck env db userId gid ≠ .ok r := by
    intro r hr
    unfold membershipCheck at hr
    cases henv : env.membershipErr with
    | some e => rw [henv] at hr; exact Except.noConfusion hr
    | none =>
        rw [henv, hno] at hr
        exact Except.noConfusion hr
  unfold handleGroupPost
  cases hm : membershipCheck env db userId gid with
  | error e => exact ⟨rfl, rfl, rfl, rfl, rfl⟩
  | ok r => exact absurd hm (hmc r)

/-- Witness for C6: user `u1` is not a member of group `g1`, so the
concrete group-scoped request is rejected with 403 and the store is
untouched. -/
theorem c6_non_member_403_witness :
    (handleGroupPost envOk dbU ⟨"T", "C", none⟩ [] "u1" "g1" 5).status = 403 ∧
    (handleGroupPost envOk dbU ⟨"T", "C", none⟩ [] "u1" "g1" 5).db = dbU ∧
    (handleGroupPost envOk dbU ⟨"T", "C", none⟩ [] "u1" "g1" 5).dbOps = [] ∧
    (handleGroupPost envOk dbU ⟨"T", "C", none⟩ [] "u1" "g1" 5).uploads = [] ∧
    (handleGroupPost envOk dbU ⟨"T", "C", none⟩ [] "u1" "g1" 5).success = false :=
  c6_non_member_403 envOk dbU ⟨"T", "C", none⟩ [] "u1" "g1" 5 (by decide)

/-- An environment whose membership lookup itself fails. -/
def envMembErr : Env :=
  { envOk with membershipErr := some "connection reset" }

/-- Claim C10: a failure of the membership query itself (not just the
absence of a row) also yields 403, never 500 — the handler conflates
store errors on that lookup with non-membership. -/
theorem c10_membership_query_error_403 (env : Env) (db : DBState) (body : ReqBody)
    (reqFiles : List MulterFile) (userId gid : String) (now : Nat) (e : String)
    (herr : env.membershipErr = some e) :
    (handleGroupPost env db body reqFiles userId gid now).status = 403 ∧
    (handleGroupPost env db body reqFiles userId gid now).db = db ∧
    (handleGroupPost env db body reqFiles userId gid now).status ≠ 500 := by
  have hmc : membershipCheck env db userId gid = .error e := by
    unfold membershipCheck
    rw [herr]
  unfold handleGroupPost
  rw [hmc]
  refine ⟨rfl, rfl, ?_⟩
  dsimp only
  decide

/-- Witness for C10: the membership query fails for a caller who in fact
has a membership row, and the request is still answered 403. -/
theorem c10_membership_query_error_403_witness :
    (handleGroupPost envMembErr dbU ⟨"T", "C", none⟩ [] "u3" "g1" 5).status = 403 ∧
    dbU.group_members.filter (fun m => m.user_id == "u3" && m.group_id == "g1") ≠ [] :=
  ⟨(c10_membership_query_error_403 envMembErr dbU ⟨"T", "C", none⟩ [] "u3" "g1" 5
      "connection reset" rfl).1,
   by decide⟩

/-- Claim C7: a successful `GET /api/announcements` answers 200 with only
`visibility = "public"` rows, ordered by `created_at` descending, each
joined with its files and its authoring user's name and email. -/
theorem c7_get_public_sorted (env : Env) (db : DBState) (hok : env.listErr = none) :
    (handleGetAnnouncements env db).status = 200 ∧
    (∀ j ∈ (handleGetAnnouncements env db).rows, j.ann.visibility = "public") ∧
    List.Pairwise (fun j1 j2 => j2.ann.created_at ≤ j1.ann.created_at)
      (handleGetAnnouncements env db).rows ∧
    (∀ j ∈ (handleGetAnnouncements env db).rows,
      j.announcement_files =
        db.announcement_files.filter (fun f2 => f2.announcement_id == j.ann.id) ∧
      j.author = (db.users.find? (fun u => u.id == j.ann.user_id)).map
        (fun u => (u.name, u.email))) := by
  have hred : handleGetAnnouncements env db =
      { status := 200, success := true,
        rows := ((db.announcements.filter
            (fun a => a.visibility == "public")).insertionSort annGE).map
          (joinAnnouncement db) } := by
    unfold handleGetAnnouncements
    rw [hok]
  rw [hred]
  refine ⟨rfl, ?_, ?_, ?_⟩
  · intro j hj
    dsimp only at hj
    obtain ⟨a, ha, rfl⟩ := List.mem_map.mp hj
    simp only [List.mem_insertionSort, List.mem_filter] at ha
    simpa [joinAnnouncement] using ha.2
  · dsimp only
    refine List.pairwise_map.mpr ?_
    exact List.sorted_insertionSort annGE
      (db.announcements.filter (fun a => a.visibility == "public"))
  · intro j hj
    dsimp only at hj
    obtain ⟨a, ha, rfl⟩ := List.mem_map.mp hj
    exact ⟨rfl, rfl⟩

/-- A store with two public and one private announcement, out of order. -/
def dbG : DBState :=
  { dbU with announcements :=
      [⟨1, "t1", "c1", "public", none, "u1", 10⟩,
       ⟨2, "t2", "c2", "private", some "g1", "u1", 20⟩,
       ⟨3, "t3", "c3", "public", none, "u9", 30⟩] }

/-- Witness for C7: the concrete listing answers 200 and its rows are
sorted newest-first. -/
theorem c7_get_public_sorted_witness :
    (handleGetAnnouncements envOk dbG).status = 200 ∧
    List.Pairwise (fun j1 j2 => j2.ann.created_at ≤ j1.ann.created_at)
      (handleGetAnnouncements envOk dbG).rows :=
  ⟨(c7_get_public_sorted envOk dbG rfl).1, (c7_get_public_sorted envOk dbG rfl).2.2.1⟩

/-- `filterMap` keeps the full length when `g` hits on every element. -/
theorem length_filterMap_of_isSome {α β : Type} (g : α → Option β) :
    ∀ l : List α, (∀ a ∈ l, (g a).isSome = true) → (l.filterMap g).length = l.length
  | [], _ => rfl
  | a :: l, h => by
      obtain ⟨b, hb⟩ := Option.isSome_iff_exists.mp (h a (by simp))
      rw [List.filterMap_cons, hb]
      simp only [List.length_cons]
      rw [length_filterMap_of_isSome g l (fun x hx => h x (by simp [hx]))]

/-- When every file of the batch uploads successfully, the upload phase
accepts and yields one `fileData` entry per file. -/
theorem uploadPhase_ok_of_all
    {u : String → Option (List Nat) → Option String → Except String String}
    {now : Nat} {fs : List JsFileObj}
    (h : ∀ f ∈ fs, (processFile u now f).2.isOk = true) :
    ∃ fds, (uploadPhase u now fs).2 = .ok fds ∧ fds.length = fs.length := by
  unfold uploadPhase
  dsimp only
  split
  · rename_i e heq
    exfalso
    obtain ⟨r, hr, hgr⟩ := List.exists_of_findSome?_eq_some heq
    obtain ⟨f, hf, rfl⟩ := List.mem_map.mp hr
    cases hres : (processFile u now f).2 with
    | error e' =>
        have h2 := h f hf
        rw [hres] at h2
        simp [Except.isOk, Except.toBool] at h2
    | ok v =>
        rw [hres] at hgr
        simp at hgr
  · refine ⟨_, rfl, ?_⟩
    rw [length_filterMap_of_isSome _ _ ?_, List.length_map]
    intro r hr
    obtain ⟨f, hf, rfl⟩ := List.mem_map.mp hr
    cases hres : (processFile u now f).2 with
    | error e' =>
        have h2 := h f hf
        rw [hres] at h2
        simp [Except.isOk, Except.toBool] at h2
    | ok v => rfl

/-- The guard `data.files.length > 0` around the upload phase is
redundant: on an empty batch the phase returns no calls and `ok []`. -/
theorem step1_eq (u : String → Option (List Nat) → Option String → Except String String)
    (now : Nat) (fs : List JsFileObj) :
    (if fs.length > 0 then uploadPhase u now fs else ([], .ok [])) = uploadPhase u now fs := by
  cases fs with
  | nil =>
      have h0 : ¬(([] : List JsFileObj).length > 0) := by simp
      rw [if_neg h0]
      rfl
  | cons f l => exact if_pos (Nat.succ_pos l.length)

/-- When the store accepts every `announcement_files` insert, all rows are
committed and the phase reports no error. -/
theorem insertFilesPhase_all_ok (fe : AnnouncementFileRow → Option String)
    (annId : Nat) (fds : List FileData) (h : ∀ r, fe r = none) :
    insertFilesPhase fe annId fds = (fds.map (fileRowOf annId), none) := by
  have h1 : (fds.map (fileRowOf annId)).filter (fun r => (fe r).isNone) =
      fds.map (fileRowOf annId) :=
    List.filter_eq_self.mpr (fun r _ => by simp [h r])
  have h2 : (fds.map (fileRowOf annId)).findSome? fe = none :=
    List.findSome?_eq_none_iff.mpr (fun r _ => h r)
  unfold insertFilesPhase
  dsimp only
  rw [h1, h2]
  rfl

/-- The store as it stands after a fully successful persist stage. -/
def persistedDB (env : Env) (db : DBState) (data : AnnData) (userId : String)
    (gid : Option String) (fds : List FileData) : DBState :=
  { db with
      announcements := db.announcements ++ [newAnnouncementRow env data userId gid]
      announcement_files := db.announcement_files ++ fds.map (fileRowOf env.newAnnId) }

/-- The complete observable result of a `createAnnouncements` call whose
uploads and inserts all succeed. -/
theorem create_success_shape (env : Env) (db : DBState) (data : AnnData)
    (userId : String) (gid : Option String) (now : Nat)
    (hok : ∀ f ∈ data.files.getD [], (processFile env.upload now f).2.isOk = true)
    (hann : env.annInsertErr = none)
    (hfi : ∀ r, env.fileInsertErr r = none) :
    ∃ fds : List FileData,
      (uploadPhase env.upload now (data.files.getD [])).2 = .ok fds ∧
      fds.length = (data.files.getD []).length ∧
      createAnnouncements env db data userId gid now =
        { db := persistedDB env db data userId gid fds
          uploads := (uploadPhase env.upload now (data.files.getD [])).1
          dbOps := DBOp.insertAnn (newAnnouncementRow env data userId gid)
            :: (fds.map (fileRowOf env.newAnnId)).map DBOp.insertFile
          emails := (sendAnnouncementEmailToUsers env (persistedDB env db data userId gid fds)
              data.title data.content fds gid).toOption.getD []
          outcome := .ok env.newAnnId } := by
  cases hdf : data.files with
  | none =>
      refine ⟨[], rfl, rfl, ?_⟩
      unfold createAnnouncements
      rw [hdf, hann]
      unfold persistedDB
      rfl
  | some fs =>
      rw [hdf] at hok
      simp only [Option.getD_some] at hok
      obtain ⟨fds, hU2, hlen⟩ := uploadPhase_ok_of_all hok
      refine ⟨fds, by simpa using hU2, by simpa using hlen, ?_⟩
      unfold createAnnouncements
      rw [hdf]
      dsimp only
      rw [step1_eq]
      simp only [Option.getD_some]
      rcases hU : uploadPhase env.upload now fs with ⟨calls, res⟩
      rw [hU] at hU2
      dsimp only at hU2
      subst hU2
      rw [hann]
      dsimp only
      rw [insertFilesPhase_all_ok env.fileInsertErr env.newAnnId fds hfi]
      unfold persistedDB
      rfl

/-- Claim C9: when every upload and every insert succeeds, exactly one
`announcement_files` row per uploaded file is created, each referencing
the new announcement's id, and the parent `insertAnn` operation precedes
every `insertFile` operation, so no file row ever references a
non-existent announcement. -/
theorem c9_n_files_linked (env : Env) (db : DBState) (data : AnnData)
    (userId : String) (gid : Option String) (now : Nat) (fs : List JsFileObj)
    (hfiles : data.files = some fs)
    (hok : ∀ f ∈ fs, (processFile env.upload now f).2.isOk = true)
    (hann : env.annInsertErr = none)
    (hfi : ∀ r, env.fileInsertErr r = none) :
    ∃ fds : List FileData,
      (uploadPhase env.upload now fs).2 = .ok fds ∧
      fds.length = fs.length ∧
      (createAnnouncements env db data userId gid now).dbOps =
        DBOp.insertAnn (newAnnouncementRow env data userId gid)
          :: (fds.map (fileRowOf env.newAnnId)).map DBOp.insertFile ∧
      (createAnnouncements env db data userId gid now).db.announcement_files =
        db.announcement_files ++ fds.map (fileRowOf env.newAnnId) ∧
      (∀ r ∈ fds.map (fileRowOf env.newAnnId), r.announcement_id = env.newAnnId) ∧
      newAnnouncementRow env data userId gid ∈
        (createAnnouncements env db data userId gid now).db.announcements ∧
      (newAnnouncementRow env data userId gid).id = env.newAnnId ∧
      (createAnnouncements env db data userId gid now).outcome = .ok env.newAnnId := by
  have hok' : ∀ f ∈ data.files.getD [], (processFile env.upload now f).2.isOk = true := by
    rw [hfiles]
    simpa using hok
  obtain ⟨fds, hU, hlen, heq⟩ := create_success_shape env db data userId gid now hok' hann hfi
  rw [hfiles] at hU hlen
  simp only [Option.getD_some] at hU hlen
  refine ⟨fds, hU, hlen, ?_, ?_, ?_, ?_, rfl, ?_⟩
  · rw [heq]
  · rw [heq]
    rfl
  · intro r hr
    obtain ⟨fd, _, rfl⟩ := List.mem_map.mp hr
    rfl
  · rw [heq]
    unfold persistedDB
    exact List.mem_append_right _ (List.mem_singleton.mpr rfl)
  · rw [heq]

/-- Witness for C9: one concrete file, all calls succeeding — the service
returns the new id and exactly one file row exists afterwards. -/
theorem c9_n_files_linked_witness :
    (createAnnouncements envOk db0 ⟨"T", "C", some [fileJpg]⟩ "u1" none 42).outcome =
      .ok envOk.newAnnId ∧
    (createAnnouncements envOk db0 ⟨"T", "C", some [fileJpg]⟩ "u1" none
        42).db.announcement_files.length = 1 := by
  obtain ⟨fds, hU, hlen, hops, hfeq, href, hmem, hid, hout⟩ :=
    c9_n_files_linked envOk db0 ⟨"T", "C", some [fileJpg]⟩ "u1" none 42 [fileJpg] rfl
      (by decide) rfl (fun r => rfl)
  refine ⟨hout, ?_⟩
  rw [hfeq]
  simp [db0, hlen]

/-- The recipient addresses attempted by the final send stage do not
depend on which individual sends the email client rejects. -/
theorem finishSend_recipients_sendErr (uq : Option String)
    (s1 s2 : String → Option String) (pu : String → String) (db : DBState)
    (title content : String) (files : List FileData) (ids : Option (List String)) :
    ((finishSend uq s1 pu db title content files ids).toOption.getD []).map
        (fun a => a.recipient) =
      ((finishSend uq s2 pu db title content files ids).toOption.getD []).map
        (fun a => a.recipient) := by
  unfold finishSend
  cases uq with
  | some e => rfl
  | none =>
      dsimp only
      split
      · rfl
      · cases hh : createEmailHtml pu title content files with
        | error e => rfl
        | ok html =>
            dsimp only [Bind.bind, Except.bind]
            simp only [Except.toOption, Option.getD_some, List.map_map]
            rfl

/-- The recipient addresses attempted by the notification fan-out do not
depend on the email client's per-recipient failures. -/
theorem sendAnn_recipients_sendErr (env : Env) (s : String → Option String)
    (db : DBState) (title content : String) (files : List FileData)
    (gid : Option String) :
    ((sendAnnouncementEmailToUsers { env with sendErr := s } db title content
        files gid).toOption.getD []).map (fun a => a.recipient) =
      ((sendAnnouncementEmailToUsers env db title content files
        gid).toOption.getD []).map (fun a => a.recipient) := by
  unfold sendAnnouncementEmailToUsers
  dsimp only
  split
  · split
    · rfl
    · split
      · exact finishSend_recipients_sendErr env.usersQueryErr s env.sendErr env.publicUrl
          db title content files _
      · rfl
  · exact finishSend_recipients_sendErr env.usersQueryErr s env.sendErr env.publicUrl
      db title content files none

/-- Claim C4: once the persist stage has succeeded, the notification
stage cannot change the outcome or the stored rows — the call still
returns the new announcement's id, the final store equals the store under
a fully healthy notification stage, and the set of attempted recipients
is the same as when no send fails (so one recipient's failure does not
suppress the other attempts). -/
theorem c4_notification_failures_isolated (env : Env) (db : DBState) (data : AnnData)
    (userId : String) (gid : Option String) (now : Nat)
    (hok : ∀ f ∈ data.files.getD [], (processFile env.upload now f).2.isOk = true)
    (hann : env.annInsertErr = none)
    (hfi : ∀ r, env.fileInsertErr r = none) :
    (createAnnouncements env db data userId gid now).outcome = .ok env.newAnnId ∧
    (createAnnouncements env db data userId gid now).db =
      (createAnnouncements
        { env with groupQueryErr := none, usersQueryErr := none, sendErr := fun _ => none }
        db data userId gid now).db ∧
    (createAnnouncements env db data userId gid now).emails.map (fun a => a.recipient) =
      (createAnnouncements { env with sendErr := fun _ => none }
        db data userId gid now).emails.map (fun a => a.recipient) := by
  obtain ⟨fds, hU, hlen, heq⟩ := create_success_shape env db data userId gid now hok hann hfi
  obtain ⟨fds2, hU2, hlen2, heq2⟩ := create_success_shape
    { env with groupQueryErr := none, usersQueryErr := none, sendErr := fun _ => none }
    db data userId gid now hok hann hfi
  obtain ⟨fds3, hU3, hlen3, heq3⟩ := create_success_shape
    { env with sendErr := fun _ => none } db data userId gid now hok hann hfi
  have hf2 : fds2 = fds := by
    have h2 : (uploadPhase env.upload now (data.files.getD [])).2 = .ok fds2 := hU2
    exact Except.ok.inj (h2.symm.trans hU)
  have hf3 : fds3 = fds := by
    have h3 : (uploadPhase env.upload now (data.files.getD [])).2 = .ok fds3 := hU3
    exact Except.ok.inj (h3.symm.trans hU)
  rw [hf2] at heq2
  rw [hf3] at heq3
  refine ⟨?_, ?_, ?_⟩
  · rw [heq]
  · rw [heq, heq2]
    rfl
  · rw [heq, heq3]
    exact (sendAnn_recipients_sendErr env (fun _ => none)
      (persistedDB env db data userId gid fds) data.title data.content fds gid).symm

/-- An environment in which the email client rejects the send to one
specific recipient. -/
def envSendFail : Env :=
  { envOk with sendErr := fun e => if e == "a@ex.com" then some "bounce" else none }

/-- Witness for C4: with one recipient's send forced to fail, the
concrete creation still returns the new id and attempts the same
recipients as a failure-free client. -/
theorem c4_notification_failures_isolated_witness :
    (createAnnouncements envSendFail dbU ⟨"T", "C", none⟩ "u1" none 5).outcome =
      .ok envSendFail.newAnnId ∧
    (createAnnouncements envSendFail dbU ⟨"T", "C", none⟩ "u1" none 5).emails.map
        (fun a => a.recipient) =
      (createAnnouncements { envSendFail with sendErr := fun _ => none } dbU
        ⟨"T", "C", none⟩ "u1" none 5).emails.map (fun a => a.recipient) :=
  ⟨(c4_notification_failures_isolated envSendFail dbU ⟨"T", "C", none⟩ "u1" none 5
      (by simp) rfl (fun r => rfl)).1,
   (c4_notification_failures_isolated envSendFail dbU ⟨"T", "C", none⟩ "u1" none 5
      (by simp) rfl (fun r => rfl)).2.2⟩

/-- With every file's `type` defined, the image filter cannot throw. -/
theorem filterImageFiles_isOk : ∀ (files : List FileData),
    (∀ fd ∈ files, fd.type.isSome = true) → ∃ l, filterImageFiles files = .ok l
  | [], _ => ⟨[], rfl⟩
  | fd :: fs, h => by
      obtain ⟨t, ht⟩ := Option.isSome_iff_exists.mp (h fd (by simp))
      obtain ⟨l, hl⟩ := filterImageFiles_isOk fs (fun x hx => h x (by simp [hx]))
      unfold filterImageFiles
      rw [ht]
      dsimp only [jsStartsWith, Bind.bind, Except.bind]
      rw [hl]
      exact ⟨_, rfl⟩

/-- With every file's `type` defined, the HTML renderer succeeds. -/
theorem createEmailHtml_isOk (pu : String → String) (title content : String)
    (files : List FileData) (h : ∀ fd ∈ files, fd.type.isSome = true) :
    ∃ html, createEmailHtml pu title content files = .ok html := by
  obtain ⟨l, hl⟩ := filterImageFiles_isOk files h
  unfold createEmailHtml
  rw [hl]
  dsimp only [Bind.bind, Except.bind]
  exact ⟨_, rfl⟩

/-- The user rows matched by the notification query: opted-in users,
restricted to the given member ids when present. -/
def queriedUsers (db : DBState) (ids : Option (List String)) : List UserRow :=
  match ids with
  | some l => (db.users.filter (fun (u : UserRow) => u.email_notifications_enabled)).filter
      (fun (u : UserRow) => l.contains u.id)
  | none => db.users.filter (fun (u : UserRow) => u.email_notifications_enabled)

/-- The member-id list fetched for a group in the notification stage. -/
def groupMemberIds (db : DBState) (g : String) : List String :=
  (db.group_members.filter (fun m => m.group_id == g)).map (fun m => m.user_id)

/-- With a healthy `users` query, the send stage attempts exactly the
queried users' addresses. -/
theorem finishSend_recipients_ok (s : String → Option String) (pu : String → String)
    (db : DBState) (title content : String) (files : List FileData)
    (ids : Option (List String)) (hfd : ∀ fd ∈ files, fd.type.isSome = true) :
    (finishSend none s pu db title content files ids).map
        (fun l => l.map (fun a => a.recipient)) =
      .ok ((queriedUsers db ids).map (fun u => u.email)) := by
  unfold finishSend
  dsimp only
  split
  · rename_i hemp
    have hnil : queriedUsers db ids = [] := by
      cases ids with
      | none => exact List.isEmpty_iff.mp hemp
      | some l => exact List.isEmpty_iff.mp hemp
    rw [hnil]
    rfl
  · rename_i hemp
    obtain ⟨html, hh⟩ := createEmailHtml_isOk pu title content files hfd
    rw [hh]
    dsimp only [Bind.bind, Except.bind, Except.map]
    rw [List.map_map]
    cases ids <;> rfl

/-- Claim C5 (amended): with healthy audience queries, the attempted
recipient set is every opted-in user when `groupId` is null or the empty
string, and the intersection of the opted-in users with the target
group's member ids when `groupId` is a non-null non-empty string; when
that intersection is empty, zero sends are attempted and the creation
still returns the new announcement's id. -/
theorem c5_recipient_set (env : Env) (db : DBState) (title content : String)
    (files : List FileData) (gid : Option String)
    (hgq : env.groupQueryErr = none) (huq : env.usersQueryErr = none)
    (hfd : ∀ fd ∈ files, fd.type.isSome = true) :
    ((gid = none ∨ gid = some "") →
      (sendAnnouncementEmailToUsers env db title content files gid).map
          (fun l => l.map (fun a => a.recipient)) =
        .ok ((db.users.filter (fun u => u.email_notifications_enabled)).map
          (fun u => u.email))) ∧
    (∀ g, gid = some g → g ≠ "" →
      (sendAnnouncementEmailToUsers env db title content files gid).map
          (fun l => l.map (fun a => a.recipient)) =
        .ok (((db.users.filter (fun u => u.email_notifications_enabled)).filter
            (fun u => (groupMemberIds db g).contains u.id)).map (fun u => u.email))) ∧
    (∀ g, gid = some g → g ≠ "" →
      (db.users.filter (fun u => u.email_notifications_enabled)).filter
          (fun u => (groupMemberIds db g).contains u.id) = [] →
      (sendAnnouncementEmailToUsers env db title content files gid).map
          (fun l => l.map (fun a => a.recipient)) = .ok [] ∧
      (∀ (db2 : DBState) (data : AnnData) (userId : String) (now : Nat),
        (∀ f ∈ data.files.getD [], (processFile env.upload now f).2.isOk = true) →
        env.annInsertErr = none → (∀ r, env.fileInsertErr r = none) →
        (createAnnouncements env db2 data userId gid now).outcome =
          .ok env.newAnnId)) := by
  have hpart2 : ∀ g, gid = some g → g ≠ "" →
      (sendAnnouncementEmailToUsers env db title content files gid).map
          (fun l => l.map (fun a => a.recipient)) =
        .ok (((db.users.filter (fun u => u.email_notifications_enabled)).filter
            (fun u => (groupMemberIds db g).contains u.id)).map (fun u => u.email)) := by
    intro g hg hne
    subst hg
    have htr : jsTruthyStr (some g) = true := by
      simp [jsTruthyStr, hne]
    have hred : sendAnnouncementEmailToUsers env db title content files (some g) =
        (if (db.group_members.filter (fun m => some m.group_id == some g)).length > 0 then
          finishSend env.usersQueryErr env.sendErr env.publicUrl db title content files
            (some ((db.group_members.filter (fun m => some m.group_id == some g)).map
              (fun m => m.user_id)))
        else .ok []) := by
      unfold sendAnnouncementEmailToUsers
      rw [hgq]
      simp [htr]
    rw [hred]
    rcases Nat.eq_zero_or_pos
        (db.group_members.filter (fun m => some m.group_id == some g)).length with hz | hp
    · have hnil : db.group_members.filter (fun m => some m.group_id == some g) = [] :=
        List.length_eq_zero.mp hz
      have hnil2 : groupMemberIds db g = [] := by
        unfold groupMemberIds
        rw [show db.group_members.filter (fun m => m.group_id == g) =
          db.group_members.filter (fun m => some m.group_id == some g) from rfl, hnil]
        rfl
      rw [if_neg (by rw [hnil]; simp), hnil2]
      simp
      rfl
    · rw [if_pos hp, huq]
      have := finishSend_recipients_ok env.sendErr env.publicUrl db title content files
        (some ((db.group_members.filter (fun m => some m.group_id == some g)).map
          (fun m => m.user_id))) hfd
      rw [this]
      rfl
  refine ⟨?_, hpart2, ?_⟩
  · intro h
    have htr : jsTruthyStr gid = false := by
      rcases h with rfl | rfl <;> rfl
    have hred : sendAnnouncementEmailToUsers env db title content files gid =
        finishSend env.usersQueryErr env.sendErr env.publicUrl db title content files none := by
      unfold sendAnnouncementEmailToUsers
      simp [htr]
    rw [hred, huq]
    exact finishSend_recipients_ok env.sendErr env.publicUrl db title content files none hfd
  · intro g hg hne hint
    refine ⟨?_, ?_⟩
    · rw [hpart2 g hg hne, hint]
      rfl
    · intro db2 data userId now hok2 hann2 hfi2
      obtain ⟨fds, _, _, heq⟩ :=
        create_success_shape env db2 data userId gid now hok2 hann2 hfi2
      rw [heq]

/-- Witness for C5: for the concrete group `g1`, the attempted recipients
are exactly the opted-in members of that group. -/
theorem c5_recipient_set_witness :
    (sendAnnouncementEmailToUsers envOk dbU "T" "C" [] (some "g1")).map
        (fun l => l.map (fun a => a.recipient)) =
      .ok (((dbU.users.filter (fun u => u.email_notifications_enabled)).filter
          (fun u => (groupMemberIds dbU "g1").contains u.id)).map (fun u => u.email)) :=
  (c5_recipient_set envOk dbU "T" "C" [] (some "g1") rfl rfl (by simp)).2.1
    "g1" rfl (by decide)

/-- Counterexample to C5 as stated: the empty string is a non-null
`groupId` and group `""` has no members, so the claimed recipient set
(the intersection) is empty — yet the code, treating the empty string as
falsy, runs the public fan-out and attempts two sends. -/
theorem c5_counterexample :
    ((some "" : Option String) ≠ none) ∧
    (dbU.group_members.filter (fun m => m.group_id == "")).map (fun m => m.user_id) = [] ∧
    (sendAnnouncementEmailToUsers envOk dbU "T" "C" [] (some "")).map
        (fun l => l.map (fun a => a.recipient)) = .ok ["a@ex.com", "c@ex.com"] := by
  refine ⟨by decide, by decide, rfl⟩

end ArchLipa
